import Mathlib

/-
  Verification of the gsearch gateway (src/server.py) against its
  natural-language specification.

  Strings are modelled as lists of characters (`Str`), so that prefix
  dispatch and case folding can be reasoned about symbolically.  Network
  calls (the Google custom-search endpoint, the chat-completion endpoint,
  the subprocess spawn) are modelled as oracle functions supplied to the
  embedded code; the JSON bodies they return are modelled at the level of
  the fields the code reads.  Python exceptions are modelled with
  `Except PyError`.
-/

abbrev Str := List Char

/-- Python `str.lower()` restricted to per-character case folding. -/
def strLower (s : Str) : Str := s.map Char.toLower

/-- Python slice `l[-n:]`; note `l[-0:]` is the whole list. -/
def pySliceLast (l : List α) (n : Nat) : List α :=
  if n == 0 then l else l.drop (l.length - n)

/-- Python exceptions raised by the embedded code paths. -/
inductive PyError where
  | indexError
  | valueError (msg : Str)
  | notImplementedError (msg : Str)
  deriving Repr, DecidableEq

/-- One entry of the `items` array of a Google custom-search JSON
response: only the `link` field is read by the code; `none` models a
JSON object without a `link` key. -/
structure GcseItem where
  link : Option Str
  deriving Repr, DecidableEq

/-- A parsed Google custom-search JSON response body: `none` models a
JSON object without an `items` key. -/
structure GcseResponse where
  items : Option (List GcseItem)
  deriving Repr, DecidableEq

/-- `SearchAPI.__get_lucky_url` (src/server.py:355-367).  The `bytes ->
json.loads` step is modelled by taking the already-parsed response.
`gcse["items"][0]` raises `IndexError` when the array is empty. -/
def get_lucky_url (gcse : GcseResponse) : Except PyError (Option Str) :=
  match gcse.items with
  | none => .ok none
  | some items =>
    match items with
    | [] => .error .indexError
    | item :: _ =>
      match item.link with
      | none => .ok none
      | some link => .ok (some link)

/-- The `Bookmark` dataclass (src/server.py:312-316). -/
structure Bookmark where
  url : Str
  name : Str := []
  shortcut : Option Str := none
  deriving Repr, DecidableEq

/-- `SearchAPI.__find_bookmark` (src/server.py:369-380): first bookmark
whose name or shortcut equals the query. -/
def find_bookmark (bookmarks : List Bookmark) (q : Str) : Option Bookmark :=
  bookmarks.find? (fun b => b.name == q || b.shortcut == some q)

/-- Core of `SearchAPI.api_bookmarks_add` (src/server.py:482-521): append
the bookmark unless one with the same name is already stored. -/
def api_bookmarks_add (bookmarks : List Bookmark) (bookmark : Bookmark) : List Bookmark :=
  if bookmarks.any (fun b => b.name == bookmark.name) then bookmarks
  else bookmarks ++ [bookmark]

/-- The collaborators `SearchAPI.__rdr` reaches over the network or
shared state, abstracted as oracles: the stored bookmark list, the
parsed response of `GoogleRequestHandler.get` for a query, and the
result of `RedditCache.get_sub_from_string` for a string. -/
structure RouterEnv where
  bookmarks : List Bookmark
  google : Str → GcseResponse
  redditSub : Str → Option Str

/-- `SearchAPI.__rdr` (src/server.py:382-425), transcribed branch by
branch.  Note the source's `a ` branch is a dangling `if` (not `elif`):
when it matches, `q` is reassigned to the remainder and the `b `..`w `
chain is still evaluated against that remainder. -/
def rdr (env : RouterEnv) (q : Str) : Except PyError (Option Str) :=
  let location : Option Str := none
  let (q, location) :=
    if ("a ".toList).isPrefixOf q then
      (q.drop 2, some ("https://www.amazon.ca/s?k=".toList ++ q.drop 2))
    else (q, location)
  if ("b ".toList).isPrefixOf q then
    match find_bookmark env.bookmarks (q.drop 2) with
    | some b => .ok (some b.url)
    | none => .ok location
  else if ("c ".toList).isPrefixOf q then
    .ok (some ("/chat.html?q=".toList ++ q.drop 2))
  else if ("g ".toList).isPrefixOf q then
    .ok (some ("https://google.com/search?q=".toList ++ q.drop 2))
  else if ("i ".toList).isPrefixOf q then
    .ok (some ("https://www.google.com/search?q=".toList ++ q.drop 2 ++ "&tbm=isch".toList))
  else if ("l ".toList).isPrefixOf q then
    match get_lucky_url (env.google (q.drop 2)) with
    | .error e => .error e
    | .ok loc => .ok loc
  else if ("m ".toList).isPrefixOf q then
    .ok (some ("https://www.google.com/maps/search/".toList ++ q.drop 2 ++ "/".toList))
  else if ("r ".toList).isPrefixOf q then
    match env.redditSub (q.drop 2) with
    | some sub => .ok (some ("https://old.reddit.com".toList ++ sub))
    | none => .ok location
  else if ("w ".toList).isPrefixOf q then
    match get_lucky_url (env.google (q.drop 2 ++ " wikipedia".toList)) with
    | .error e => .error e
    | .ok loc => .ok loc
  else
    .ok location

/-- Modelled from the spec: the persisted configuration store (spec §6),
an external collaborator (`jsonconfig.JSONConfig`, not in src/), "a
key/value document addressed by slash-separated paths ... supporting
get-with-default and set".  `get_str` with default. -/
def config_get_str (config : List (Str × Str)) (key dflt : Str) : Str :=
  match config.find? (fun kv => kv.1 == key) with
  | some kv => kv.2
  | none => dflt

/-- Modelled from the spec: `JSONConfig.set` — replace the value at the
key, or create the key. -/
def config_set (config : List (Str × Str)) (key v : Str) : List (Str × Str) :=
  match config with
  | [] => [(key, v)]
  | kv :: rest => if kv.1 == key then (key, v) :: rest else kv :: config_set rest key v

/-- The gateway's process-wide mutable state touched by the claims: the
`AI` object's in-memory `model` / `system` / `max_prompt` fields
(src/server.py:61-73) and the shared persisted configuration store. -/
structure GatewayState where
  model : Str
  system : Str
  max_prompt : Nat
  config : List (Str × Str)
  deriving Repr, DecidableEq

/-- One `{role, content}` message of an upstream chat-completion request
body (the `ChatCompletion*MessageParam` values built by `AI.chat`). -/
structure Msg where
  role : Str
  content : Str
  deriving Repr, DecidableEq

/-- The `ChatHistory` dataclass (src/server.py:54-58); `ts` is modelled
as a Nat and never read by the code under verification. -/
structure ChatHistory where
  role : Str
  content : Str
  ts : Nat := 0
  deriving Repr, DecidableEq

/-- The fields of `ChatResponse` (src/server.py:43-51) the claims can
observe; the two wall-clock timestamps are dropped. -/
structure ChatResponse where
  id : Str
  message : Str
  deriving Repr, DecidableEq

/-- Externally observable side effects of a dispatched operation: an
upstream chat-completion request carrying a message list, or a
subprocess spawn of a shell command line. -/
inductive Effect where
  | chatCall (messages : List Msg)
  | shellExec (cmd_line : Str)
  deriving Repr, DecidableEq

/-- The network / OS boundary: `completion msgs` is the upstream
chat-completion call, returning the response `id` and
`choices[0].message.content` (`none` models JSON null content);
`exec cmd` is the subprocess spawn, returning `returncode` (`none`
models a missing return code), decoded stdout and stderr. -/
structure Oracles where
  completion : List Msg → Str × Option Str
  exec : Str → Option Int × Str × Str

/-- `AI.get_model` (src/server.py:78-79). -/
def AI.get_model (st : GatewayState) : Str := st.model

/-- `AI.set_model` (src/server.py:81-86): update the in-memory field and
persist under `/openai/model`. -/
def AI.set_model (st : GatewayState) (model : Str) : GatewayState :=
  { st with model := model, config := config_set st.config "/openai/model".toList model }

/-- `AI.get_prompt` (src/server.py:142-143). -/
def AI.get_prompt (st : GatewayState) : Str := st.system

/-- `AI.set_prompt` (src/server.py:145-149): update the in-memory field
and persist under `/openai/system`. -/
def AI.set_prompt (st : GatewayState) (system : Str) : GatewayState :=
  { st with system := system, config := config_set st.config "/openai/system".toList system }

/-- The message list `AI.chat` builds (src/server.py:98-120): the system
message, then the history truncated to the last `max_prompt` entries,
each mapped to a user or assistant message by its role. -/
def chatMessages (system : Str) (max_prompt : Nat) (history : List ChatHistory) : List Msg :=
  Msg.mk "system".toList system ::
    (pySliceLast history max_prompt).map fun h =>
      if h.role == "user".toList then Msg.mk "user".toList h.content
      else Msg.mk "assistant".toList h.content

/-- `AI.chat` (src/server.py:96-140): build the message list, issue the
completion call, and substitute the fixed sentinel text when the
response content is null.  Returns the response and the effect trace. -/
def AI.chat (o : Oracles) (st : GatewayState) (history : List ChatHistory)
    (prompt : Option Str) : ChatResponse × List Effect :=
  let system := match prompt with
    | some p => p
    | none => st.system
  let messages := chatMessages system st.max_prompt history
  let (id, content) := o.completion messages
  let message := match content with
    | some c => c
    | none => "empty response from completions API".toList
  (ChatResponse.mk id message, [.chatCall messages])

/-- The cache key `/reddit/cache/<string>` used by
`RedditCache.get_sub_from_string`. -/
def redditCacheKey (s : Str) : Str := "/reddit/cache/".toList ++ s

/-- The resolver question built by `RedditCache.get_sub_from_string`
(src/server.py:174-176). -/
def subredditQuery (s : Str) : Str :=
  ("what is the sub reddit for ".toList ++ s ++ ".".toList)
    ++ " Just return the name of the subreddit starting with /r/".toList
    ++ " and nothing else".toList

/-- The resolver invocation `RedditCache.get_sub_from_string` makes on a
cache miss (src/server.py:178-180): `AI.chat` on the single-message
history carrying the subreddit question, with the fixed prompt. -/
def redditResolve (o : Oracles) (st : GatewayState) (s : Str) : ChatResponse × List Effect :=
  AI.chat o st [ChatHistory.mk "user".toList (subredditQuery s) 0]
    (some "you are usefull assistant".toList)

/-- `RedditCache.get_sub_from_string` (src/server.py:162-185): lower the
key, return a non-empty cached value, otherwise ask the chat resolver,
persist its message under the lowered key and return it.  Returns the
value, the updated state and the effect trace (empty iff the resolver
was not invoked). -/
def get_sub_from_string (o : Oracles) (st : GatewayState) (string : Str) :
    Str × GatewayState × List Effect :=
  let string := strLower string
  let sub := config_get_str st.config (redditCacheKey string) []
  if sub ≠ [] then (sub, st, [])
  else
    let (r, effs) := redditResolve o st string
    (r.message,
     { st with config := config_set st.config (redditCacheKey string) r.message },
     effs)

/-- The `UserCommand` dataclass (src/server.py:188-193); the history
dicts are modelled as already-converted `ChatHistory` values (the
conversion in `CmdLine.chat` fills `ts` with its default). -/
structure UserCommand where
  cmd : Str
  args : Str := []
  history : List ChatHistory := []
  deriving Repr, DecidableEq

/-- The `CmdResponse` dataclass (src/server.py:196-200). -/
structure CmdResponse where
  data : Str := []
  markdown : Bool := false
  error : Str := []
  deriving Repr, DecidableEq

/-- The result of one dispatched command: the handler's response or the
Python exception it raised, the (possibly mutated) gateway state, and
the trace of external effects. -/
abbrev HandlerResult := Except PyError CmdResponse × GatewayState × List Effect

/-- Tag naming each bound method stored in the `CmdLine.__commands`
table (src/server.py:217-226). -/
inductive CmdTag where
  | help
  | book
  | chat
  | prompt
  | model
  | uptime
  | reset
  deriving Repr, DecidableEq

/-- The `CmdHandler` dataclass (src/server.py:203-209); the callable is
represented by its tag. -/
structure CmdHandler where
  name : Str
  help : Str
  tag : CmdTag
  hidden : Bool := false
  deriving Repr, DecidableEq

/-- `CmdLine.__commands` (src/server.py:217-226), in source order. -/
def commands : List CmdHandler := [
  CmdHandler.mk "/help".toList "This".toList .help false,
  CmdHandler.mk "/bookmarks".toList "List, add, remove bookmarks".toList .book false,
  CmdHandler.mk "/chat".toList "LLM chat".toList .chat true,
  CmdHandler.mk "/prompt".toList "Get or change prompt".toList .prompt false,
  CmdHandler.mk "/model".toList "Get current model".toList .model false,
  CmdHandler.mk "/uptime".toList "Uptime".toList .uptime false,
  CmdHandler.mk "/reset".toList "Reset output".toList .reset false,
  CmdHandler.mk "/clear".toList "Clear output".toList .reset false]

/-- Python `f"{s:<n}"`: left-justify to width n with spaces. -/
def padLeftAlign (s : Str) (n : Nat) : Str := s ++ List.replicate (n - s.length) ' '

/-- `CmdLine.__exec` (src/server.py:228-249): spawn the shell command
line (recorded as an effect), defaulting the return code to 1 when the
process reports none. -/
def CmdLine.exec (o : Oracles) (cmd_line : Str) : (Int × Str × Str) × List Effect :=
  let (rc, stdout_buff, stderr_buff) := o.exec cmd_line
  let ret : Int := match rc with
    | some r => r
    | none => 1
  ((ret, stdout_buff, stderr_buff), [.shellExec cmd_line])

/-- `CmdLine.book` (src/server.py:251-252): always raises
NotImplementedError. -/
def CmdLine.book (_o : Oracles) (st : GatewayState) (_cmd : UserCommand) : HandlerResult :=
  (.error (.notImplementedError "Implemented in JS".toList), st, [])

/-- `CmdLine.help` (src/server.py:254-264): render the non-hidden rows
of the command table. -/
def CmdLine.help (_o : Oracles) (st : GatewayState) (_cmd : UserCommand) : HandlerResult :=
  let help_str := "```\ncommands:\n".toList
  let help_str := commands.foldl
    (fun acc c =>
      if c.hidden == false then
        acc ++ "    ".toList ++ padLeftAlign c.name 12 ++ c.help ++ "\n".toList
      else acc)
    help_str
  (.ok (CmdResponse.mk (help_str ++ "```".toList) true []), st, [])

/-- `CmdLine.chat` (src/server.py:266-280): raise ValueError on empty
args, else append the new user turn to the supplied history and issue
the completion call. -/
def CmdLine.chat (o : Oracles) (st : GatewayState) (cmd : UserCommand) : HandlerResult :=
  if cmd.args == [] then
    (.error (.valueError "Missing message".toList), st, [])
  else
    let hist := cmd.history ++ [ChatHistory.mk "user".toList cmd.args 0]
    let (resp, effs) := AI.chat o st hist none
    (.ok (CmdResponse.mk resp.message true []), st, effs)

/-- `CmdLine.prompt` (src/server.py:282-287): set the prompt when args
is non-empty, then return the current prompt. -/
def CmdLine.prompt (_o : Oracles) (st : GatewayState) (cmd : UserCommand) : HandlerResult :=
  let st := if cmd.args ≠ [] then AI.set_prompt st cmd.args else st
  (.ok (CmdResponse.mk (AI.get_prompt st) false []), st, [])

/-- `CmdLine.model` (src/server.py:289-294): set the model when args is
non-empty, then return the current model. -/
def CmdLine.model (_o : Oracles) (st : GatewayState) (cmd : UserCommand) : HandlerResult :=
  let st := if cmd.args ≠ [] then AI.set_model st cmd.args else st
  (.ok (CmdResponse.mk (AI.get_model st) false []), st, [])

/-- `CmdLine.uptime` (src/server.py:296-298): run the fixed command line
`/usr/bin/uptime` and return its stdout wrapped in backticks. -/
def CmdLine.uptime (o : Oracles) (st : GatewayState) (_cmd : UserCommand) : HandlerResult :=
  let ((_ret, stdout, _err), effs) := CmdLine.exec o "/usr/bin/uptime".toList
  (.ok (CmdResponse.mk ("`".toList ++ stdout ++ "`".toList) true []), st, effs)

/-- `CmdLine.reset` (src/server.py:300-301): always raises
NotImplementedError. -/
def CmdLine.reset (_o : Oracles) (st : GatewayState) (_cmd : UserCommand) : HandlerResult :=
  (.error (.notImplementedError "Should be implemented in JS".toList), st, [])

/-- Map a table entry's tag back to the bound method it stands for. -/
def runHandler : CmdTag → Oracles → GatewayState → UserCommand → HandlerResult
  | .help => CmdLine.help
  | .book => CmdLine.book
  | .chat => CmdLine.chat
  | .prompt => CmdLine.prompt
  | .model => CmdLine.model
  | .uptime => CmdLine.uptime
  | .reset => CmdLine.reset

/-- `CmdLine.handler` (src/server.py:303-309): first table entry whose
name equals the command name wins; with no match, return (not raise)
the "Unknown command" response. -/
def CmdLine.handler (o : Oracles) (st : GatewayState) (cmd : UserCommand) : HandlerResult :=
  match commands.find? (fun c => cmd.cmd == c.name) with
  | some c => runHandler c.tag o st cmd
  | none =>
    (.ok (CmdResponse.mk ("Unknown command `".toList ++ cmd.cmd ++ "`".toList) true []),
     st, [])

/-- The HTTP status `SearchAPI.api_cmd` (src/server.py:551-575) pairs
with a handler outcome: 200 on a normal response, 501 on
NotImplementedError, 400 on ValueError / TypeError / other exceptions. -/
def api_cmd_status : Except PyError CmdResponse → Nat
  | .ok _ => 200
  | .error (.notImplementedError _) => 501
  | .error (.valueError _) => 400
  | .error .indexError => 400

/-- Modelled from the spec: the outcome one attempt of
`ResilientClient.issueRequest` observes (spec §4.1) — a success-range
status with a body, a status outside the success range (retryable, the
connection is kept), or a connection-level error (retryable, the
connection is discarded).  The ResilientClient component itself is not
in src/ (`GoogleRequestHandler.get` in src/server.py is a
single-attempt caller of the same endpoint). -/
inductive AttemptOutcome where
  | success (body : Str)
  | httpFailure
  | connFailure
  deriving Repr, DecidableEq

/-- Modelled from the spec: what `issueRequest` yields — the response
bytes, or the documented empty-result fallback on exhaustion. -/
inductive ReqResult where
  | bytes (body : Str)
  | emptyResult
  deriving Repr, DecidableEq

/-- Modelled from the spec: the retry loop of
`ResilientClient.issueRequest` (spec §4.1).  `attempt i` is the outcome
of the i-th attempt (0-based); the second component counts the attempts
actually made.  Both failure classes are retried with no
response-shape change between attempts; on exhaustion the empty result
is returned rather than an exception thrown. -/
def issueRequestLoop (attempt : Nat → AttemptOutcome) : Nat → Nat → ReqResult × Nat
  | 0, made => (.emptyResult, made)
  | Nat.succ remaining, made =>
    match attempt made with
    | .success body => (.bytes body, made + 1)
    | .httpFailure => issueRequestLoop attempt remaining (made + 1)
    | .connFailure => issueRequestLoop attempt remaining (made + 1)

/-- Modelled from the spec: the default retry ceiling, `maxAttempts`
(default 5). -/
def maxAttemptsDefault : Nat := 5

/-- Modelled from the spec: `ResilientClient.issueRequest` with its
attempt budget; returns the result and the number of attempts made. -/
def issueRequest (attempt : Nat → AttemptOutcome)
    (maxAttempts : Nat := maxAttemptsDefault) : ReqResult × Nat :=
  issueRequestLoop attempt maxAttempts 0

/-
  Helper lemmas.
-/

theorem config_get_str_set_same (config : List (Str × Str)) (key v dflt : Str) :
    config_get_str (config_set config key v) key dflt = v := by
  induction config with
  | nil => simp [config_set, config_get_str, List.find?]
  | cons kv rest ih =>
    by_cases h : kv.1 == key
    · simp [config_set, h, config_get_str, List.find?]
    · simp only [config_set, h, if_false, Bool.false_eq_true, if_neg]
      simpa [config_get_str, List.find?, h] using ih

theorem issueRequestLoop_all_connFailure (attempt : Nat → AttemptOutcome)
    (h : ∀ i, attempt i = .connFailure) :
    ∀ remaining made,
      issueRequestLoop attempt remaining made = (.emptyResult, made + remaining) := by
  intro remaining
  induction remaining with
  | zero => intro made; simp [issueRequestLoop]
  | succ k ih =>
    intro made
    rw [issueRequestLoop, h made, ih (made + 1)]
    have harith : made + 1 + k = made + (k + 1) := by omega
    rw [harith]

theorem get_sub_from_string_hit (o : Oracles) (st : GatewayState) (x : Str)
    (h : config_get_str st.config (redditCacheKey (strLower x)) [] ≠ []) :
    get_sub_from_string o st x
      = (config_get_str st.config (redditCacheKey (strLower x)) [], st, []) := by
  simp [get_sub_from_string, h]

theorem get_sub_from_string_miss (o : Oracles) (st : GatewayState) (x : Str)
    (h : config_get_str st.config (redditCacheKey (strLower x)) [] = []) :
    get_sub_from_string o st x
      = ((redditResolve o st (strLower x)).1.message,
         { st with config := config_set st.config (redditCacheKey (strLower x)) (redditResolve o st (strLower x)).1.message },
         (redditResolve o st (strLower x)).2) := by
  simp [get_sub_from_string, h]

theorem redditResolve_message (o : Oracles) (st : GatewayState) (s : Str) :
    (redditResolve o st s).1.message =
      match (o.completion (chatMessages "you are usefull assistant".toList st.max_prompt
          [ChatHistory.mk "user".toList (subredditQuery s) 0])).2 with
      | some c => c
      | none => "empty response from completions API".toList := rfl

theorem redditResolve_effects (o : Oracles) (st : GatewayState) (s : Str) :
    (redditResolve o st s).2 =
      [Effect.chatCall (chatMessages "you are usefull assistant".toList st.max_prompt
        [ChatHistory.mk "user".toList (subredditQuery s) 0])] := rfl

/-
  Claim C1.
-/

/-- C1, counterexample: a provider response whose `items` key is bound
to an empty array makes the router raise IndexError on a "l X" query
instead of returning "no redirect": the claim as stated is false. -/
theorem C1_counterexample :
    rdr (RouterEnv.mk [] (fun _ => GcseResponse.mk (some [])) (fun _ => none)) "l x".toList
      = .error .indexError := by rfl

/-- C1 (amended): for every query "l X" (and "w X") where the provider
response carries no `items` key — the provider's representation of zero
results — the router returns "no redirect" (none) and does not raise;
a response with `items` bound to an empty array instead raises
IndexError (see the counterexample). -/
theorem C1_amended_theorem (env : RouterEnv) (x : Str)
    (hl : (env.google x).items = none)
    (hw : (env.google (x ++ " wikipedia".toList)).items = none) :
    rdr env ('l' :: ' ' :: x) = .ok none ∧ rdr env ('w' :: ' ' :: x) = .ok none := by
  constructor
  · simp [rdr, List.isPrefixOf, get_lucky_url, hl]
  · have hw2 : (env.google (x ++ [' ', 'w', 'i', 'k', 'i', 'p', 'e', 'd', 'i', 'a'])).items
        = none := hw
    simp [rdr, List.isPrefixOf, get_lucky_url, hw2]

/-- C1, witness: the amended theorem applied at a concrete environment
whose provider always answers without an `items` key. -/
theorem C1_witness :
    rdr (RouterEnv.mk [] (fun _ => GcseResponse.mk none) (fun _ => none)) ('l' :: ' ' :: "q".toList) = .ok none ∧
    rdr (RouterEnv.mk [] (fun _ => GcseResponse.mk none) (fun _ => none)) ('w' :: ' ' :: "q".toList) = .ok none :=
  C1_amended_theorem (RouterEnv.mk [] (fun _ => GcseResponse.mk none) (fun _ => none))
    "q".toList rfl rfl

/-
  Claim C2.
-/

/-- C2: evaluating the router at the failing input "a c foo" (empty
bookmark store, irrelevant oracles).  The first matching prefix rule is
"a ", whose redirect is the e-commerce URL for the remainder "c foo";
but because the source's "a " branch is an `if` rather than an `elif`,
the truncated remainder is re-examined against the later chain, the
"c " rule matches it, and the returned location is the chat redirect
for "foo" — a later prefix rule overrode the first match. -/
theorem C2_failing_eval :
    rdr (RouterEnv.mk [] (fun _ => GcseResponse.mk none) (fun _ => none)) "a c foo".toList
      = .ok (some "/chat.html?q=foo".toList) ∧
    "/chat.html?q=foo".toList ≠ "https://www.amazon.ca/s?k=".toList ++ "c foo".toList := by
  constructor
  · rfl
  · decide

/-
  Claim C3.
-/

/-- C3: against an endpoint whose every attempt fails with a
connection-level error, `ResilientClient.issueRequest` makes exactly
`maxAttempts` attempts — neither more nor fewer — and surfaces the
failure as the documented empty-result fallback; the default attempt
budget is 5.  (The ResilientClient is modelled from spec §4.1: it is
not present in src/, where `GoogleRequestHandler.get` is a
single-attempt caller.) -/
theorem C3_theorem (attempt : Nat → AttemptOutcome) (maxAttempts : Nat)
    (h : ∀ i, attempt i = .connFailure) :
    issueRequest attempt maxAttempts = (.emptyResult, maxAttempts) ∧ maxAttemptsDefault = 5 := by
  constructor
  · have hloop := issueRequestLoop_all_connFailure attempt h maxAttempts 0
    simpa [issueRequest] using hloop
  · rfl

/-- C3, witness: the theorem applied to an always-failing endpoint with
the default budget of 5 attempts. -/
theorem C3_witness :
    issueRequest (fun _ => .connFailure) 5 = (.emptyResult, 5) ∧ maxAttemptsDefault = 5 :=
  C3_theorem (fun _ => AttemptOutcome.connFailure) 5 (fun _ => rfl)

/-
  Claim C4.
-/

/-- C4, counterexample: when the chat completion returns empty-string
content, the first "r X" call persists the empty string, the cache
read treats it as a miss, and the second call with the same argument
invokes the resolver again (its effect trace is non-empty) — refuting
the claim's "without invoking the resolver again". -/
theorem C4_counterexample :
    (get_sub_from_string (Oracles.mk (fun _ => ([], some [])) (fun _ => (none, [], [])))
      ((get_sub_from_string (Oracles.mk (fun _ => ([], some [])) (fun _ => (none, [], [])))
        (GatewayState.mk "m".toList "s".toList 12 []) "x".toList).2.1)
      "x".toList).2.2 ≠ [] := by decide

/-- C4 (amended): for every query "r X" whose key is not yet cached, the
first call invokes the resolver and persists its result under the
lower-cased key; provided that result is a non-empty string, any second
call whose argument differs from X only in letter case returns the
persisted value without invoking the resolver again (an empty-string
result is treated as absent and re-resolved). -/
theorem C4_amended_theorem (o : Oracles) (st : GatewayState) (x y : Str)
    (hmiss : config_get_str st.config (redditCacheKey (strLower x)) [] = [])
    (hcase : strLower y = strLower x)
    (hne : (get_sub_from_string o st x).1 ≠ []) :
    (get_sub_from_string o st x).2.2 ≠ [] ∧
    (get_sub_from_string o st x).2.1.config
      = config_set st.config (redditCacheKey (strLower x)) (get_sub_from_string o st x).1 ∧
    get_sub_from_string o (get_sub_from_string o st x).2.1 y
      = ((get_sub_from_string o st x).1, (get_sub_from_string o st x).2.1, []) := by
  have h1 := get_sub_from_string_miss o st x hmiss
  rw [h1] at hne ⊢
  refine ⟨by simp [redditResolve_effects], rfl, ?_⟩
  have h2 : config_get_str
      (config_set st.config (redditCacheKey (strLower x)) (redditResolve o st (strLower x)).1.message)
      (redditCacheKey (strLower y)) []
      = (redditResolve o st (strLower x)).1.message := by
    rw [hcase]
    exact config_get_str_set_same _ _ _ _
  have h3 := get_sub_from_string_hit o
    ({ st with config := config_set st.config (redditCacheKey (strLower x)) (redditResolve o st (strLower x)).1.message }) y ?_
  · rw [h3]
    simp only [h2]
  · simp only [h2]
    exact hne

/-- C4, state used by the witness. -/
def C4_state : GatewayState := GatewayState.mk "m".toList "s".toList 12 []

/-- C4, oracles used by the witness: the completion always answers with
content "/r/vim". -/
def C4_oracle : Oracles :=
  Oracles.mk (fun _ => ("id".toList, some "/r/vim".toList)) (fun _ => (none, [], []))

/-- C4, witness: the amended theorem applied at the uncached key "Vim"
followed by the differently-cased "vim". -/
theorem C4_witness :
    (get_sub_from_string C4_oracle C4_state "Vim".toList).2.2 ≠ [] ∧
    (get_sub_from_string C4_oracle C4_state "Vim".toList).2.1.config
      = config_set C4_state.config (redditCacheKey (strLower "Vim".toList))
          (get_sub_from_string C4_oracle C4_state "Vim".toList).1 ∧
    get_sub_from_string C4_oracle
        (get_sub_from_string C4_oracle C4_state "Vim".toList).2.1 "vim".toList
      = ((get_sub_from_string C4_oracle C4_state "Vim".toList).1,
         (get_sub_from_string C4_oracle C4_state "Vim".toList).2.1, []) :=
  C4_amended_theorem C4_oracle C4_state "Vim".toList "vim".toList
    (by decide) (by decide) (by decide)

/-
  Claim C5.
-/

/-- C5, counterexample: when the upstream completion yields null content
for the key "x" (empty store), the resolver has no usable value, yet
the sentinel message is persisted under `/reddit/cache/x` and a second
lookup of "x" returns it without invoking the resolver (empty effect
trace) — refuting both halves of the claim. -/
theorem C5_counterexample :
    ((get_sub_from_string (Oracles.mk (fun _ => ([], none)) (fun _ => (none, [], [])))
        (GatewayState.mk "m".toList "s".toList 12 []) "x".toList).2.1.config
      = [("/reddit/cache/x".toList, "empty response from completions API".toList)]) ∧
    (get_sub_from_string (Oracles.mk (fun _ => ([], none)) (fun _ => (none, [], [])))
      ((get_sub_from_string (Oracles.mk (fun _ => ([], none)) (fun _ => (none, [], [])))
        (GatewayState.mk "m".toList "s".toList 12 []) "x".toList).2.1)
      "x".toList).2.2 = [] := by
  constructor
  · decide
  · decide

/-- C5 (amended): the cache persists every resolver result.  When the
upstream completion yields null content (a resolver failure), the
sentinel message "empty response from completions API" is written under
the key and a subsequent lookup returns it without invoking the
resolver again; only an empty-string resolver result is treated as
absent on the next lookup and re-resolved — and even it is written to
the store. -/
theorem C5_amended_theorem (oA oB : Oracles) (st : GatewayState) (x : Str)
    (hmiss : config_get_str st.config (redditCacheKey (strLower x)) [] = [])
    (hA : ∀ m, (oA.completion m).2 = none)
    (hB : ∀ m, (oB.completion m).2 = some []) :
    (get_sub_from_string oA st x
       = ("empty response from completions API".toList, { st with config := config_set st.config (redditCacheKey (strLower x)) "empty response from completions API".toList }, [Effect.chatCall (chatMessages "you are usefull assistant".toList st.max_prompt [ChatHistory.mk "user".toList (subredditQuery (strLower x)) 0])]) ∧
     get_sub_from_string oA { st with config := config_set st.config (redditCacheKey (strLower x)) "empty response from completions API".toList } x
       = ("empty response from completions API".toList, { st with config := config_set st.config (redditCacheKey (strLower x)) "empty response from completions API".toList }, [])) ∧
    (get_sub_from_string oB st x
       = ([], { st with config := config_set st.config (redditCacheKey (strLower x)) [] }, [Effect.chatCall (chatMessages "you are usefull assistant".toList st.max_prompt [ChatHistory.mk "user".toList (subredditQuery (strLower x)) 0])]) ∧
     (get_sub_from_string oB { st with config := config_set st.config (redditCacheKey (strLower x)) [] } x).2.2 ≠ []) := by
  have hmsgA : (redditResolve oA st (strLower x)).1.message
      = "empty response from completions API".toList := by
    rw [redditResolve_message, hA]
  have hmsgB : (redditResolve oB st (strLower x)).1.message = [] := by
    rw [redditResolve_message, hB]
  refine ⟨⟨?_, ?_⟩, ?_, ?_⟩
  · rw [get_sub_from_string_miss oA st x hmiss, hmsgA, redditResolve_effects]
  · have h2 : config_get_str (config_set st.config (redditCacheKey (strLower x)) "empty response from completions API".toList) (redditCacheKey (strLower x)) [] = "empty response from completions API".toList :=
      config_get_str_set_same _ _ _ _
    have hne2 : config_get_str ({ st with config := config_set st.config (redditCacheKey (strLower x)) "empty response from completions API".toList } : GatewayState).config (redditCacheKey (strLower x)) [] ≠ [] := by
      simp only [h2]
      decide
    have h3 := get_sub_from_string_hit oA { st with config := config_set st.config (redditCacheKey (strLower x)) "empty response from completions API".toList } x hne2
    rw [h3]
    simp only [h2]
  · rw [get_sub_from_string_miss oB st x hmiss, hmsgB, redditResolve_effects]
  · have h2 : config_get_str (config_set st.config (redditCacheKey (strLower x)) []) (redditCacheKey (strLower x)) [] = ([] : Str) :=
      config_get_str_set_same _ _ _ _
    have h4 := get_sub_from_string_miss oB { st with config := config_set st.config (redditCacheKey (strLower x)) [] } x h2
    rw [h4]
    simp [redditResolve_effects]

/-- C5, state used by the witness. -/
def C5_state : GatewayState := GatewayState.mk "m".toList "s".toList 12 []

/-- C5, oracles whose completion always yields null content. -/
def C5_oracleA : Oracles := Oracles.mk (fun _ => ([], none)) (fun _ => (none, [], []))

/-- C5, oracles whose completion always yields empty-string content. -/
def C5_oracleB : Oracles := Oracles.mk (fun _ => ([], some [])) (fun _ => (none, [], []))

/-- C5, witness: the amended theorem applied at the uncached key "x"
with the null-content and empty-content completions. -/
theorem C5_witness :
    (get_sub_from_string C5_oracleA C5_state "x".toList
       = ("empty response from completions API".toList, { C5_state with config := config_set C5_state.config (redditCacheKey (strLower "x".toList)) "empty response from completions API".toList }, [Effect.chatCall (chatMessages "you are usefull assistant".toList C5_state.max_prompt [ChatHistory.mk "user".toList (subredditQuery (strLower "x".toList)) 0])]) ∧
     get_sub_from_string C5_oracleA { C5_state with config := config_set C5_state.config (redditCacheKey (strLower "x".toList)) "empty response from completions API".toList } "x".toList
       = ("empty response from completions API".toList, { C5_state with config := config_set C5_state.config (redditCacheKey (strLower "x".toList)) "empty response from completions API".toList }, [])) ∧
    (get_sub_from_string C5_oracleB C5_state "x".toList
       = ([], { C5_state with config := config_set C5_state.config (redditCacheKey (strLower "x".toList)) [] }, [Effect.chatCall (chatMessages "you are usefull assistant".toList C5_state.max_prompt [ChatHistory.mk "user".toList (subredditQuery (strLower "x".toList)) 0])]) ∧
     (get_sub_from_string C5_oracleB { C5_state with config := config_set C5_state.config (redditCacheKey (strLower "x".toList)) [] } "x".toList).2.2 ≠ []) :=
  C5_amended_theorem C5_oracleA C5_oracleB C5_state "x".toList
    (by decide) (fun _ => rfl) (fun _ => rfl)

/-
  Claim C6.
-/

/-- C6, counterexample: dispatching the unknown name "/nope" does not
raise any error — the handler returns a normal markdown response
"Unknown command `/nope`" directly — refuting the claim that unknown
names raise a typed UnknownCommand error that the caller then
renders. -/
theorem C6_counterexample :
    CmdLine.handler (Oracles.mk (fun _ => ([], none)) (fun _ => (none, [], [])))
        (GatewayState.mk [] [] 12 []) (UserCommand.mk "/nope".toList [] [])
      = (.ok (CmdResponse.mk "Unknown command `/nope`".toList true []),
         GatewayState.mk [] [] 12 [], []) := by rfl

/-- C6 (amended): for every command name that does not exactly match an
entry of the dispatch table, the dispatcher returns — without raising —
a normal CmdResponse whose text is "Unknown command `<name>`" with
markdown set, leaving the state untouched and making no external call;
the HTTP layer maps this ordinary response to status 200. -/
theorem C6_amended_theorem (o : Oracles) (st : GatewayState) (cmd : UserCommand)
    (hfind : commands.find? (fun c => cmd.cmd == c.name) = none) :
    CmdLine.handler o st cmd
      = (.ok (CmdResponse.mk ("Unknown command `".toList ++ cmd.cmd ++ "`".toList) true []),
         st, []) ∧
    api_cmd_status (CmdLine.handler o st cmd).1 = 200 := by
  have h : CmdLine.handler o st cmd
      = (.ok (CmdResponse.mk ("Unknown command `".toList ++ cmd.cmd ++ "`".toList) true []),
         st, []) := by
    simp [CmdLine.handler, hfind]
  refine ⟨h, ?_⟩
  rw [h]
  rfl

/-- C6, witness: the amended theorem applied to the unknown name
"/nope" at a concrete state and oracle set. -/
theorem C6_witness :
    (CmdLine.handler (Oracles.mk (fun _ => ([], none)) (fun _ => (none, [], [])))
        (GatewayState.mk [] [] 12 []) (UserCommand.mk "/nope".toList [] [])
      = (.ok (CmdResponse.mk ("Unknown command `".toList ++ "/nope".toList ++ "`".toList) true []),
         GatewayState.mk [] [] 12 [], []) ∧
     api_cmd_status (CmdLine.handler (Oracles.mk (fun _ => ([], none)) (fun _ => (none, [], [])))
        (GatewayState.mk [] [] 12 []) (UserCommand.mk "/nope".toList [] [])).1 = 200) :=
  C6_amended_theorem (Oracles.mk (fun _ => ([], none)) (fun _ => (none, [], [])))
    (GatewayState.mk [] [] 12 []) (UserCommand.mk "/nope".toList [] []) (by decide)

/-
  Claim C7.
-/

/-- C7: for every oracle set, state and history, dispatching "/chat"
with empty args raises ValueError "Missing message" (the
InvalidArgument of the spec), leaves the state unchanged and makes no
upstream call: the effect trace is empty, so no chat-completion request
is issued on the empty-args path. -/
theorem C7_theorem (o : Oracles) (st : GatewayState) (history : List ChatHistory) :
    CmdLine.handler o st (UserCommand.mk "/chat".toList [] history)
      = (.error (.valueError "Missing message".toList), st, []) := rfl

/-
  Claim C8.
-/

/-- C8, counterexample: starting from a stored collection that already
holds two bookmarks named "x" (storage does not enforce name
uniqueness), adding {name:"x", url:"a"} twice leaves two stored
bookmarks named "x", not exactly one — refuting the claim's "any
starting bookmark collection". -/
theorem C8_counterexample :
    (api_bookmarks_add (api_bookmarks_add
        [Bookmark.mk "a".toList "x".toList none, Bookmark.mk "b".toList "x".toList none]
        (Bookmark.mk "a".toList "x".toList none))
      (Bookmark.mk "a".toList "x".toList none)).countP
        (fun b => b.name == "x".toList) = 2 := by decide

/-- C8 (amended): for every bookmark and every starting collection
holding at most one bookmark with its name, adding the bookmark twice
leaves exactly one stored bookmark with that name, and the second add
does not change the stored collection. -/
theorem C8_amended_theorem (start : List Bookmark) (bm : Bookmark)
    (h : start.countP (fun b => b.name == bm.name) ≤ 1) :
    api_bookmarks_add (api_bookmarks_add start bm) bm = api_bookmarks_add start bm ∧
    (api_bookmarks_add start bm).countP (fun b => b.name == bm.name) = 1 := by
  by_cases hex : start.any (fun b => b.name == bm.name)
  · have h1 : api_bookmarks_add start bm = start := by simp [api_bookmarks_add, hex]
    rw [h1]
    refine ⟨h1, ?_⟩
    have hpos : 0 < start.countP (fun b => b.name == bm.name) := by
      rw [List.countP_pos_iff]
      rcases List.any_eq_true.mp hex with ⟨b, hb, hpb⟩
      exact ⟨b, hb, hpb⟩
    omega
  · have hex2 : start.any (fun b => b.name == bm.name) = false := by
      simpa using hex
    have h1 : api_bookmarks_add start bm = start ++ [bm] := by
      simp [api_bookmarks_add, hex2]
    have hzero : start.countP (fun b => b.name == bm.name) = 0 := by
      rw [List.countP_eq_zero]
      intro a ha
      have hfa := List.any_eq_false.mp hex2 a ha
      simpa using hfa
    have hone : (start ++ [bm]).countP (fun b => b.name == bm.name) = 1 := by
      rw [List.countP_append, hzero]
      simp [List.countP, List.countP.go]
    have hany2 : (start ++ [bm]).any (fun b => b.name == bm.name) = true := by
      simp [List.any_append]
    have h2 : api_bookmarks_add (start ++ [bm]) bm = start ++ [bm] := by
      simp [api_bookmarks_add, hany2]
    rw [h1, h2]
    exact ⟨rfl, hone⟩

/-- C8, witness: the amended theorem applied at the empty starting
collection and the bookmark {name:"x", url:"a"}. -/
theorem C8_witness :
    api_bookmarks_add (api_bookmarks_add [] (Bookmark.mk "a".toList "x".toList none))
        (Bookmark.mk "a".toList "x".toList none)
      = api_bookmarks_add [] (Bookmark.mk "a".toList "x".toList none) ∧
    (api_bookmarks_add [] (Bookmark.mk "a".toList "x".toList none)).countP
        (fun b => b.name == (Bookmark.mk "a".toList "x".toList none).name) = 1 :=
  C8_amended_theorem [] (Bookmark.mk "a".toList "x".toList none) (by decide)

/-
  Claim C9.
-/

/-- C9: for every oracle set, state, args and history, dispatching
"/uptime" spawns exactly the fixed command line "/usr/bin/uptime"; any
two uptime dispatches — whatever their args and history — produce the
identical subprocess-invocation trace, so no part of the user input
flows into the executed command line. -/
theorem C9_theorem (o : Oracles) (st : GatewayState) (args args2 : Str)
    (history history2 : List ChatHistory) :
    (CmdLine.handler o st (UserCommand.mk "/uptime".toList args history)).2.2
      = [Effect.shellExec "/usr/bin/uptime".toList] ∧
    (CmdLine.handler o st (UserCommand.mk "/uptime".toList args history)).2.2
      = (CmdLine.handler o st (UserCommand.mk "/uptime".toList args2 history2)).2.2 :=
  ⟨rfl, rfl⟩

/-
  Claim C10.
-/

/-- C10: dispatching "/model" or "/prompt" with empty args leaves the
whole gateway state — current model, current system prompt and every
key of the persisted configuration store — unchanged, makes no external
call, and returns the current stored value (the model, resp. the
system prompt). -/
theorem C10_theorem (o : Oracles) (st : GatewayState) (history : List ChatHistory) :
    CmdLine.handler o st (UserCommand.mk "/model".toList [] history)
      = (.ok (CmdResponse.mk (AI.get_model st) false []), st, []) ∧
    CmdLine.handler o st (UserCommand.mk "/prompt".toList [] history)
      = (.ok (CmdResponse.mk (AI.get_prompt st) false []), st, []) :=
  ⟨rfl, rfl⟩
